import Mathlib

set_option maxRecDepth 1000000
set_option maxHeartbeats 2000000

/-!
Verification development for a minimal git implementation (`app/main.py`).

Byte strings are modelled as `List Nat` (each element a byte value).
Machine arithmetic is modelled on `Nat` with explicit masking to 32 bits
where the algorithms require wrap-around.  External library collaborators
(`hashlib.sha1`, `zlib`) are treated as follows: SHA-1 is embedded in full
(the repository's behaviour depends on its exact output), while zlib
compress/decompress is an inverse pair, so the object store is modelled on
the uncompressed envelope bytes that the source passes to `zlib.compress`.
-/

namespace GitPy

/-- Errors a Python run of the relevant code paths can surface.  `loopFuel`
is the out-of-fuel marker of the fuelled loops below; the drivers always
pass enough fuel, and for the delta loop this is proved. -/
inductive PyErr where
  | indexError
  | valueError
  | fileNotFound
  | loopFuel
deriving DecidableEq, Repr

/-- Decidable equality for `Except`, used to evaluate the run of a code
path on a concrete input. -/
instance {ε α : Type} [DecidableEq ε] [DecidableEq α] : DecidableEq (Except ε α) := fun x y =>
  match x, y with
  | .error a, .error b =>
      if h : a = b then .isTrue (h ▸ rfl) else .isFalse fun hc => h (Except.error.inj hc)
  | .ok a, .ok b =>
      if h : a = b then .isTrue (h ▸ rfl) else .isFalse fun hc => h (Except.ok.inj hc)
  | .error _, .ok _ => .isFalse fun hc => Except.noConfusion hc
  | .ok _, .error _ => .isFalse fun hc => Except.noConfusion hc

/-- Bytes of a (pure-ASCII in all our uses) string, as Python `str.encode`. -/
def strBytes (s : String) : List Nat := s.data.map Char.toNat

/-- Python slicing `s[:n]` on a string. -/
def strTake (s : String) (n : Nat) : String := String.mk (s.data.take n)

/-- Python slicing `s[n:]` on a string. -/
def strDrop (s : String) (n : Nat) : String := String.mk (s.data.drop n)

/-! ## SHA-1 over `Nat`, masked to 32 bits -/

/-- Mask to a 32-bit word. -/
def w32 (x : Nat) : Nat := x &&& 0xFFFFFFFF

/-- Left rotation of a 32-bit word. -/
def rotl (n x : Nat) : Nat := w32 ((x <<< n) ||| (x >>> (32 - n)))

/-- Big-endian bytes of a 32-bit word. -/
def be32 (n : Nat) : List Nat :=
  [(n >>> 24) &&& 255, (n >>> 16) &&& 255, (n >>> 8) &&& 255, n &&& 255]

/-- Big-endian bytes of a 64-bit word. -/
def be64 (n : Nat) : List Nat := be32 (n >>> 32) ++ be32 n

/-- SHA-1 padding: `0x80`, zeros to 56 mod 64, then the bit length. -/
def sha1Pad (msg : List Nat) : List Nat :=
  let len := msg.length
  let k := (120 - ((len + 1) % 64)) % 64
  msg ++ 0x80 :: List.replicate k 0 ++ be64 (8 * len)

/-- Split into 64-byte chunks; fuel-driven, `xs.length` is always enough. -/
def chunks64Go : Nat → List Nat → List (List Nat)
  | 0, _ => []
  | fuel + 1, xs => if xs.isEmpty then [] else xs.take 64 :: chunks64Go fuel (xs.drop 64)

/-- Split a padded message into 64-byte blocks. -/
def chunks64 (xs : List Nat) : List (List Nat) := chunks64Go xs.length xs

/-- Big-endian 32-bit words of a block. -/
def beWords : List Nat → List Nat
  | a :: b :: c :: d :: rest =>
      ((((a <<< 8) ||| b) <<< 8 ||| c) <<< 8 ||| d) :: beWords rest
  | _ => []

/-- Extend the 16 message words by `k` further schedule words. -/
def sha1ExpandGo : Nat → List Nat → List Nat
  | 0, ws => ws
  | k + 1, ws =>
      let n := ws.length
      sha1ExpandGo k (ws ++ [rotl 1 ((ws.getD (n - 3) 0) ^^^ (ws.getD (n - 8) 0) ^^^
        (ws.getD (n - 14) 0) ^^^ (ws.getD (n - 16) 0))])

/-- The 80-word SHA-1 message schedule. -/
def sha1Expand (ws : List Nat) : List Nat := sha1ExpandGo (80 - ws.length) ws

/-- Round function selector. -/
def sha1F (i b c d : Nat) : Nat :=
  if i < 20 then (b &&& c) ||| ((0xFFFFFFFF ^^^ b) &&& d)
  else if i < 40 then b ^^^ c ^^^ d
  else if i < 60 then (b &&& c) ||| (b &&& d) ||| (c &&& d)
  else b ^^^ c ^^^ d

/-- Round constant selector. -/
def sha1K (i : Nat) : Nat :=
  if i < 20 then 0x5A827999
  else if i < 40 then 0x6ED9EBA1
  else if i < 60 then 0x8F1BBCDC
  else 0xCA62C1D6

/-- One SHA-1 round on the five-word state. -/
def sha1Round (w : List Nat) (st : Nat × Nat × Nat × Nat × Nat) (i : Nat) :
    Nat × Nat × Nat × Nat × Nat :=
  let (a, b, c, d, e) := st
  let temp := w32 (rotl 5 a + sha1F i b c d + e + sha1K i + w.getD i 0)
  (temp, a, rotl 30 b, c, d)

/-- Compress one 64-byte block into the running hash state. -/
def sha1Compress (h : Nat × Nat × Nat × Nat × Nat) (block : List Nat) :
    Nat × Nat × Nat × Nat × Nat :=
  let w := sha1Expand (beWords block)
  let (h0, h1, h2, h3, h4) := h
  let (a, b, c, d, e) := (List.range 80).foldl (sha1Round w) h
  (w32 (h0 + a), w32 (h1 + b), w32 (h2 + c), w32 (h3 + d), w32 (h4 + e))

/-- SHA-1 initial state. -/
def sha1Init : Nat × Nat × Nat × Nat × Nat :=
  (0x67452301, 0xEFCDAB89, 0x98BADCFE, 0x10325476, 0xC3D2E1F0)

/-- The 20 digest bytes of SHA-1 of a byte string. -/
def sha1Bytes (msg : List Nat) : List Nat :=
  let (h0, h1, h2, h3, h4) := (chunks64 (sha1Pad msg)).foldl sha1Compress sha1Init
  be32 h0 ++ be32 h1 ++ be32 h2 ++ be32 h3 ++ be32 h4

/-- Lowercase hex digit for a nibble. -/
def hexChar (n : Nat) : Char := Char.ofNat (if n < 10 then 48 + n else 87 + n)

/-- Lowercase hex rendering of a byte string, as Python `bytes.hex()`. -/
def bytesToHex (bs : List Nat) : String :=
  String.mk (bs.foldr (fun b acc => hexChar ((b >>> 4) &&& 15) :: hexChar (b &&& 15) :: acc) [])

/-- Hex digest of SHA-1, as Python `hashlib.sha1(x).hexdigest()`. -/
def sha1Hex (msg : List Nat) : String := bytesToHex (sha1Bytes msg)

/-! ## Loose objects (`hash_object`, main.py lines 12-29) -/

/-- The envelope `f"{obj_type} {len(data)}\x00".encode() + data` built at
main.py lines 18, 268 and 330: the bytes handed to `zlib.compress` and to
`hashlib.sha1`. -/
def envelopeBytes (obj_type : String) (data : List Nat) : List Nat :=
  strBytes (obj_type ++ " " ++ toString data.length) ++ 0 :: data

/-- Result of a loose-object write: the returned sha, the directory created,
the file name inside it, and the bytes passed to `zlib.compress` (the store
is modelled pre-compression since zlib decompress inverts compress). -/
structure LooseWrite where
  sha : String
  dir : String
  file : String
  stored : List Nat
deriving DecidableEq, Repr

/-- Embedding of `hash_object` (main.py lines 12-29). -/
def hash_object (data : List Nat) (obj_type : String) : LooseWrite :=
  let store := envelopeBytes obj_type data
  let sha := sha1Hex store
  { sha := sha
    dir := ".git/objects/" ++ strTake sha 2
    file := strDrop sha 2
    stored := store }

/-! ## Commits (`create_commit`, main.py lines 82-110) -/

/-- Python string interpolation of a `str | None` value. -/
def pyStrOpt : Option String → String
  | some s => s
  | none => "None"

/-- Embedding of the commit text built by `create_commit` (main.py lines
97-107).  The timestamp is the value `int(time.time())` read at line 88,
passed here explicitly; timezone, author and committer are the constants
hard-coded at lines 90-94. -/
def create_commit_data (tree_sha : String) (parent_sha : Option String)
    (message : String) (timestamp : Nat) : String :=
  let timezone := "-0700"
  let author := "Duy Huynh <vndee.huynh@gmail.com>"
  let committer := "Duy Huynh <vndee.huynh@gmail.com>"
  let content := ["tree " ++ tree_sha,
                  "parent " ++ pyStrOpt parent_sha,
                  "author " ++ author ++ " " ++ toString timestamp ++ " " ++ timezone,
                  "committer " ++ committer ++ " " ++ toString timestamp ++ " " ++ timezone,
                  "",
                  message]
  String.intercalate "\n" content ++ "\n"

/-- Embedding of `create_commit` (main.py lines 82-110): build the commit
text and store it through `hash_object`. -/
def create_commit (tree_sha : String) (parent_sha : Option String)
    (message : String) (timestamp : Nat) : LooseWrite :=
  hash_object (strBytes (create_commit_data tree_sha parent_sha message timestamp)) "commit"

/-! ## cat-file -p (main.py lines 404-415) -/

/-- Split a byte string at its first NUL: the part before, and the part
after when a NUL exists. -/
def breakNul : List Nat → List Nat × Option (List Nat)
  | [] => ([], none)
  | b :: rest =>
      if b = 0 then ([], some rest)
      else
        let (pre, post) := breakNul rest
        (b :: pre, post)

/-- Python `data.split(b"\x00", 2)`: at most two splits, up to three parts. -/
def splitNulMax2 (xs : List Nat) : List (List Nat) :=
  match breakNul xs with
  | (all, none) => [all]
  | (p1, some r1) =>
      match breakNul r1 with
      | (all, none) => [p1, all]
      | (p2, some r2) => [p1, p2, r2]

/-- Bytes printed by `cat-file -p` (main.py lines 410-415): the last element
of `data.split(b"\x00", 2)`, printed with no trailing newline. -/
def cat_file_p (data : List Nat) : List Nat := (splitNulMax2 data).getLastD []

/-! ## write-tree entry order (main.py lines 39-79) -/

/-- Strict lexicographic order on byte strings, the order Python `sorted`
uses on the (ASCII) names returned by `os.listdir`. -/
def lexLtBytes : List Nat → List Nat → Bool
  | [], [] => false
  | [], _ :: _ => true
  | _ :: _, [] => false
  | a :: as, b :: bs => if a < b then true else if b < a then false else lexLtBytes as bs

/-- Insert into a list sorted by a byte-string key. -/
def insertByKey {α : Type} (key : α → List Nat) (x : α) : List α → List α
  | [] => [x]
  | y :: ys => if lexLtBytes (key x) (key y) then x :: y :: ys else y :: insertByKey key x ys

/-- Sort by a byte-string key (directory listings have distinct keys, so
this agrees with Python `sorted`). -/
def sortByKey {α : Type} (key : α → List Nat) (xs : List α) : List α :=
  xs.foldr (insertByKey key) []

/-- A directory listing entry: name bytes, and whether it is a directory. -/
structure DirEnt where
  name : List Nat
  isDir : Bool
deriving DecidableEq, Repr

/-- Order in which `write_tree_recursive` emits tree entries (main.py lines
47 and 73-76): it iterates `sorted(os.listdir(directory))`, i.e. sorts by
the bare name, and appends entries in that order. -/
def write_tree_order (listing : List DirEnt) : List (List Nat) :=
  (sortByKey DirEnt.name listing).map DirEnt.name

/-- The spec's sort key (spec.md section 3, Tree): the name, with a trailing
slash byte appended for directories.  Second definition following the
spec's words, for comparison with `write_tree_order`. -/
def tree_sort_key (e : DirEnt) : List Nat := if e.isDir then e.name ++ [47] else e.name

/-- Entry order required by the spec: sorted by `tree_sort_key`. -/
def spec_tree_order (listing : List DirEnt) : List (List Nat) :=
  (sortByKey tree_sort_key listing).map DirEnt.name

/-! ## Pack varints (main.py lines 192-223) -/

/-- The shared continuation loop of `next_size_type` and `next_size`:
`while bs[i-1] & 0x80: size |= (bs[i] & 0x7f) << shift; shift += 7`.
Consumes one byte per continuation; `prev` is the previously read byte. -/
def size_varint_go (prev : Nat) (bs : List Nat) (shift size : Nat) :
    Except PyErr (Nat × List Nat) :=
  if prev &&& 0x80 = 0 then .ok (size, bs)
  else
    match bs with
    | [] => .error .indexError
    | b :: bs' => size_varint_go b bs' (shift + 7) (size ||| ((b &&& 0x7F) <<< shift))

/-- Python `type_map.get(ty, "unknown")` at main.py lines 195-203. -/
def type_map (t : Nat) : String :=
  if t = 1 then "commit"
  else if t = 2 then "tree"
  else if t = 3 then "blob"
  else if t = 4 then "tag"
  else if t = 6 then "ofs_delta"
  else if t = 7 then "ref_delta"
  else "unknown"

/-- Embedding of `next_size_type` (main.py lines 192-212): 3-bit type in
bits 6-4 of the first byte, 4-bit low size nibble, 7-bit continuations. -/
def next_size_type : List Nat → Except PyErr (String × Nat × List Nat)
  | [] => .error .indexError
  | b :: bs =>
      let ty := type_map ((b &&& 0b01110000) >>> 4)
      (size_varint_go b bs 4 (b &&& 0b00001111)).map fun p => (ty, p.1, p.2)

/-- Embedding of `next_size` (main.py lines 214-223): 7-bit low size,
7-bit continuations; used for the two sizes in a delta header. -/
def next_size : List Nat → Except PyErr (Nat × List Nat)
  | [] => .error .indexError
  | b :: bs => size_varint_go b bs 7 (b &&& 0b01111111)

/-! ## Delta instruction loop (main.py lines 301-327) -/

/-- Presence-selected byte reads of a copy instruction (main.py lines
311-320): for each `(bit, sh)`, when `cmd` has `bit` set, take the next
delta byte and or it into the accumulator shifted by `sh`; `delta[pos]`
past the end raises IndexError. -/
def readPresence (cmd : Nat) : List (Nat × Nat) → List Nat → Nat →
    Except PyErr (Nat × List Nat)
  | [], rest, acc => .ok (acc, rest)
  | (bit, sh) :: bits, rest, acc =>
      if cmd &&& (1 <<< bit) ≠ 0 then
        match rest with
        | [] => .error .indexError
        | b :: rest' => readPresence cmd bits rest' (acc ||| (b <<< sh))
      else readPresence cmd bits rest acc

/-- Offset presence bits 0-3 with shifts `i * 8` (main.py lines 311-314). -/
def offsetBits : List (Nat × Nat) := [(0, 0), (1, 8), (2, 16), (3, 24)]

/-- Size presence bits 4-6 with shifts `i * 8` (main.py lines 317-320). -/
def sizeBits : List (Nat × Nat) := [(4, 0), (5, 8), (6, 16)]

/-- One iteration of the delta loop on instruction byte `cmd` with
remaining bytes `rest` (main.py lines 304-327): a copy when bit 7 is set
(append `base[offset : offset+size]`), otherwise an insert of the next
`cmd` literal bytes (Python slices, so a short tail inserts fewer bytes).
Returns the appended chunk and the remaining delta bytes. -/
def delta_step (base_content : List Nat) (cmd : Nat) (rest : List Nat) :
    Except PyErr (List Nat × List Nat) :=
  if cmd &&& 0b10000000 ≠ 0 then
    match readPresence cmd offsetBits rest 0 with
    | .error e => .error e
    | .ok (offset, rest1) =>
        match readPresence cmd sizeBits rest1 0 with
        | .error e => .error e
        | .ok (size, rest2) => .ok (((base_content.drop offset).take size, rest2))
  else .ok ((rest.take cmd, rest.drop cmd))

/-- The `while delta:` loop (main.py lines 303-327), fuelled; every
successful step strictly shrinks the delta, so `delta.length` fuel never
runs out (proved below). -/
def apply_delta_go (base_content : List Nat) : Nat → List Nat → Except PyErr (List Nat)
  | _, [] => .ok []
  | 0, _ :: _ => .error .loopFuel
  | fuel + 1, cmd :: rest =>
      match delta_step base_content cmd rest with
      | .error e => .error e
      | .ok (chunk, rem) => (apply_delta_go base_content fuel rem).map (chunk ++ ·)

/-- Delta application as `process_object` performs it (main.py lines
296-327): skip the two size varints (both values are discarded by the
source), then run the instruction loop. -/
def apply_delta (base_content content : List Nat) : Except PyErr (List Nat) := do
  let (_, d1) ← next_size content
  let (_, d2) ← next_size d1
  apply_delta_go base_content d2.length d2

/-! ## Packfile first pass (main.py lines 238-258) -/

/-- One parsed record of the first pass: the mapped type name, the
decompressed content (payload or delta program), and for `ref_delta` the
hex base sha read from the 20 bytes before the zlib stream. -/
structure PackObjR where
  ty : String
  content : List Nat
  base : Option String
deriving DecidableEq, Repr

/-- Embedding of the first-pass loop (main.py lines 238-258), iterated
`n` times.  `decomp` is the external `zlib.decompressobj` collaborator,
returning the decompressed payload and the unused tail.  Known types are
decompressed and collected; `ref_delta` additionally consumes the 20-byte
base sha; any other type name (notably `ofs_delta`) matches neither branch,
so the loop continues at the bytes right after the record header. -/
def pack_first_pass (decomp : List Nat → List Nat × List Nat) :
    Nat → List Nat → Except PyErr (List PackObjR)
  | 0, _ => .ok []
  | n + 1, data => do
      let (obj_type, _, rest) ← next_size_type data
      if ["commit", "tree", "blob", "tag"].contains obj_type then
        let (content, unused) := decomp rest
        let objs ← pack_first_pass decomp n unused
        .ok (⟨obj_type, content, none⟩ :: objs)
      else if obj_type = "ref_delta" then
        let base_sha := bytesToHex (rest.take 20)
        let (delta, unused) := decomp (rest.drop 20)
        let objs ← pack_first_pass decomp n unused
        .ok (⟨"ref_delta", delta, some base_sha⟩ :: objs)
      else
        pack_first_pass decomp n rest

/-! ## Packfile second pass (main.py lines 260-342) -/

/-- State threaded through `process_object`: the `processed_objects` set
and the objects directory, keyed by hex sha and holding the uncompressed
envelope each file decompresses to. -/
structure PackState where
  processed : List String
  store : List (String × List Nat)
deriving DecidableEq, Repr

/-- The direct-object branch of `process_object` (main.py lines 266-278),
also reused at lines 329-338: build the envelope, hash it, write it. -/
def processDirect (st : PackState) (ty : String) (content : List Nat) :
    PackState × String :=
  let store := envelopeBytes ty content
  let sha := sha1Hex store
  ({ processed := sha :: st.processed, store := (sha, store) :: st.store }, sha)

/-- The base search at main.py lines 284-288: the first non-delta object in
the pack whose envelope hashes to `base_sha`. -/
def findBase (objects : List PackObjR) (base_sha : String) : Option PackObjR :=
  objects.find? fun o => o.ty ≠ "ref_delta" && sha1Hex (envelopeBytes o.ty o.content) == base_sha

/-- Python `base_content.split(b"\x00", 1)[1]` (main.py line 294); a
missing NUL would raise IndexError. -/
def afterNul : List Nat → Except PyErr (List Nat)
  | [] => .error .indexError
  | b :: rest => if b = 0 then .ok rest else afterNul rest

/-- Python `base_content.split(b" ")[0].decode()` (main.py line 293). -/
def typeOfEnvelope (env : List Nat) : String :=
  String.mk ((env.takeWhile (· ≠ 32)).map Char.ofNat)

/-- Embedding of `process_object` (main.py lines 263-339).  Direct objects
are hashed and written.  For a `ref_delta`: when the base sha is not yet
processed, the source first processes the first matching *non-delta* pack
object, if any (lines 282-288); it then reads the base from the objects
directory — a missing file raises FileNotFoundError (line 291) — splits
off kind and payload, strips the two delta header sizes, applies the
instruction loop, and stores the result under the base's kind. -/
def process_object (objects : List PackObjR) (st : PackState) (o : PackObjR) :
    Except PyErr PackState :=
  if o.ty ≠ "ref_delta" then .ok (processDirect st o.ty o.content).1
  else
    match o.base with
    | none => .error .fileNotFound
    | some base_sha =>
        let st1 :=
          if st.processed.contains base_sha then st
          else
            match findBase objects base_sha with
            | some ob => (processDirect st ob.ty ob.content).1
            | none => st
        match st1.store.lookup base_sha with
        | none => .error .fileNotFound
        | some base_store => do
            let base_type := typeOfEnvelope base_store
            let base_content ← afterNul base_store
            let result ← apply_delta base_content o.content
            .ok (processDirect st1 base_type result).1

/-- The second-pass driver `for obj in objects: process_object(obj)`
(main.py lines 341-342), starting from an empty store. -/
def write_packfile_pass2 (objects : List PackObjR) : Except PyErr PackState :=
  objects.foldlM (process_object objects) ⟨[], []⟩

/-! ## pkt-line parsing in `download_packfile` (main.py lines 172-185) -/

/-- Value of an ASCII hex digit, as Python `int(_, 16)` accepts. -/
def hexDigitVal (c : Nat) : Option Nat :=
  if 48 ≤ c ∧ c ≤ 57 then some (c - 48)
  else if 97 ≤ c ∧ c ≤ 102 then some (c - 87)
  else if 65 ≤ c ∧ c ≤ 70 then some (c - 55)
  else none

/-- Accumulate hex digits left to right. -/
def hexNatCore : List Nat → Nat → Option Nat
  | [], acc => some acc
  | c :: cs, acc =>
      match hexDigitVal c with
      | some v => hexNatCore cs (acc * 16 + v)
      | none => none

/-- Python `int(bs, 16)`: ValueError (`none`) on empty input or a non-hex
byte. -/
def hexNat (bs : List Nat) : Option Nat :=
  if bs.isEmpty then none else hexNatCore bs 0

/-- The `while data:` pkt-line loop (main.py lines 175-181), fuelled: read
a 4-hex-digit length, stop at `0000`, record `data[4:line_len]`, continue
at `data[line_len:]`.  Each iteration consumes at least one byte, so
`data.length` fuel is always enough. -/
def parse_pkt_lines_go : Nat → List Nat → Except PyErr (List (List Nat))
  | _, [] => .ok []
  | 0, _ :: _ => .error .loopFuel
  | fuel + 1, data =>
      match hexNat (data.take 4) with
      | none => .error .valueError
      | some n =>
          if n = 0 then .ok []
          else (parse_pkt_lines_go fuel (data.drop n)).map (((data.take n).drop 4) :: ·)

/-- Pkt-line records extracted by `download_packfile` from the response
body. -/
def parse_pkt_lines (data : List Nat) : Except PyErr (List (List Nat)) :=
  parse_pkt_lines_go data.length data

/-- What `download_packfile` returns (main.py line 185): all lines after
the first, each with its first byte removed, concatenated — with no
inspection of the removed byte. -/
def download_packfile_demux (data : List Nat) : Except PyErr (List Nat) :=
  (parse_pkt_lines data).map fun ls => (ls.drop 1).map (·.drop 1) |>.flatten

/-- Spec-side errors of the sideband demultiplexer. -/
inductive SpecErr where
  | remoteError : List Nat → SpecErr
  | protocolError
deriving DecidableEq, Repr

/-- Second definition following the spec's words (spec.md section 4.E,
response demux), for comparison with `download_packfile_demux`: over the
payloads after the `packfile` banner, concatenate channel-1 payloads with
the channel byte stripped, skip channel 2, fail with `RemoteError(text)`
on channel 3, and treat anything else as a protocol error. -/
def spec_sideband_demux : List (List Nat) → Except SpecErr (List Nat)
  | [] => .ok []
  | l :: ls =>
      match l with
      | 1 :: payload => (spec_sideband_demux ls).map (payload ++ ·)
      | 2 :: _ => spec_sideband_demux ls
      | 3 :: text => .error (.remoteError text)
      | _ => .error .protocolError

/-! ## Concrete inputs used by the claim theorems -/

/-- A well-formed parsed pack in which the second object is a `ref_delta`
whose base is the object produced by the third object, itself a
`ref_delta` over the first (a one-byte blob `"x"`): the base of the middle
delta is a delta that appears later in the stream.  Each delta program is
`base_size = 1`, `target_size = 1`, one literal insert. -/
def egObjectsC1 : List PackObjR :=
  [⟨"blob", [120], none⟩,
   ⟨"ref_delta", [1, 1, 1, 122], some (sha1Hex (envelopeBytes "blob" [121]))⟩,
   ⟨"ref_delta", [1, 1, 1, 121], some (sha1Hex (envelopeBytes "blob" [120]))⟩]

/-- Directory listing with a file `foo-bar` and a directory `foo`: the pair
on which bare-name order and trailing-slash order disagree. -/
def egListingC3 : List DirEnt :=
  [⟨strBytes "foo-bar", false⟩, ⟨strBytes "foo", true⟩]

/-- Fetch response body: `packfile` banner, a channel-2 progress payload
`prog`, a channel-1 pack payload `PK`, flush. -/
def egResponseC4 : List Nat :=
  strBytes "000dpackfile\n0009" ++ 2 :: strBytes "prog" ++
    strBytes "0007" ++ 1 :: strBytes "PK" ++ strBytes "0000"

/-- Fetch response body: `packfile` banner, a channel-3 error payload
`err`, flush. -/
def egResponseC4err : List Nat :=
  strBytes "000dpackfile\n0008" ++ 3 :: strBytes "err" ++ strBytes "0000"

/-- A stand-in for the external zlib decompressor, used where a concrete
function is needed and the record's bytes are taken as-is. -/
def decompEg : List Nat → List Nat × List Nat := fun bs => (bs, [])

end GitPy

namespace GitPy

/-! ## Helper lemmas -/

/-- A successful `readPresence` returns a suffix of its input bytes. -/
theorem readPresence_le (cmd : Nat) (bits : List (Nat × Nat)) :
    ∀ (rest : List Nat) (acc v : Nat) (rest' : List Nat),
    readPresence cmd bits rest acc = Except.ok (v, rest') → rest'.length ≤ rest.length := by
  induction bits with
  | nil =>
      intro rest acc v rest' h
      simp only [readPresence, Except.ok.injEq, Prod.mk.injEq] at h
      rw [← h.2]
  | cons p bits ih =>
      obtain ⟨bit, sh⟩ := p
      intro rest acc v rest' h
      simp only [readPresence] at h
      split at h
      · cases rest with
        | nil => simp at h
        | cons b restt => exact Nat.le_succ_of_le (ih restt _ v rest' h)
      · exact ih rest acc v rest' h

/-- The only error `readPresence` raises is the IndexError of reading past
the end of the delta. -/
theorem readPresence_error (cmd : Nat) (bits : List (Nat × Nat)) :
    ∀ (rest : List Nat) (acc : Nat) (e : PyErr),
    readPresence cmd bits rest acc = Except.error e → e = PyErr.indexError := by
  induction bits with
  | nil => intro rest acc e h; simp [readPresence] at h
  | cons p bits ih =>
      obtain ⟨bit, sh⟩ := p
      intro rest acc e h
      simp only [readPresence] at h
      split at h
      · cases rest with
        | nil => simp at h; exact h.symm
        | cons b restt => exact ih restt _ e h
      · exact ih rest acc e h

/-- Every successful delta instruction consumes at least one byte: the
remaining program is strictly shorter than `cmd :: rest`. -/
theorem delta_step_shrinks (base_content : List Nat) (cmd : Nat)
    (rest chunk rem : List Nat)
    (h : delta_step base_content cmd rest = Except.ok (chunk, rem)) :
    rem.length < (cmd :: rest).length := by
  unfold delta_step at h
  split at h
  · split at h
    · exact Except.noConfusion h
    · rename_i offset rest1 h1
      split at h
      · exact Except.noConfusion h
      · rename_i size rest2 h2
        simp only [Except.ok.injEq, Prod.mk.injEq] at h
        have e1 := readPresence_le cmd offsetBits rest 0 offset rest1 h1
        have e2 := readPresence_le cmd sizeBits rest1 0 size rest2 h2
        rw [← h.2]
        simp only [List.length_cons]
        omega
  · simp only [Except.ok.injEq, Prod.mk.injEq] at h
    rw [← h.2]
    simp only [List.length_drop, List.length_cons]
    omega

/-- The only error a delta instruction raises is IndexError. -/
theorem delta_step_error (base_content : List Nat) (cmd : Nat) (rest : List Nat)
    (e : PyErr) (h : delta_step base_content cmd rest = Except.error e) :
    e = PyErr.indexError := by
  unfold delta_step at h
  split at h
  · split at h
    · rename_i e2 h1
      rw [← Except.error.inj h]
      exact readPresence_error cmd offsetBits rest 0 e2 h1
    · rename_i offset rest1 h1
      split at h
      · rename_i e2 h2
        rw [← Except.error.inj h]
        exact readPresence_error cmd sizeBits rest1 0 e2 h2
      · exact Except.noConfusion h
  · exact Except.noConfusion h

/-- With fuel at least the length of the delta program, the fuelled loop
never reports fuel exhaustion: the `while delta:` loop of the source
always terminates within `|delta|` iterations. -/
theorem apply_delta_go_no_fuel_error (base_content : List Nat) :
    ∀ (fuel : Nat) (delta : List Nat), delta.length ≤ fuel →
    apply_delta_go base_content fuel delta ≠ Except.error PyErr.loopFuel := by
  intro fuel
  induction fuel with
  | zero =>
      intro delta hlen
      have hnil : delta = [] := List.length_eq_zero.mp (Nat.le_zero.mp hlen)
      subst hnil
      simp [apply_delta_go]
  | succ fuel ih =>
      intro delta hlen
      cases delta with
      | nil => simp [apply_delta_go]
      | cons cmd rest =>
          intro hcon
          simp only [apply_delta_go] at hcon
          split at hcon
          · rename_i e heq
            have he := delta_step_error base_content cmd rest e heq
            have h2 := Except.error.inj hcon
            rw [he] at h2
            exact PyErr.noConfusion h2
          · rename_i chunk rem heq
            have hlt := delta_step_shrinks base_content cmd rest chunk rem heq
            have hrem : rem.length ≤ fuel := by
              simp only [List.length_cons] at hlt hlen
              omega
            cases hres : apply_delta_go base_content fuel rem with
            | error e =>
                rw [hres] at hcon
                simp only [Except.map] at hcon
                exact ih rem hrem ((Except.error.inj hcon) ▸ hres)
            | ok v =>
                rw [hres] at hcon
                simp only [Except.map] at hcon
                exact Except.noConfusion hcon

/-! ## Claim theorems -/

/-- Claim C1: the claim says every `ref_delta` is resolved and stored even
when its base is itself a delta appearing later in the pack, with failures
surfaced as `UnresolvedDeltas`.  The code violates this: on `egObjectsC1`,
whose middle delta's base is produced by the later delta, the base search
at main.py lines 284-288 only considers non-delta pack objects, so the
subsequent store read raises FileNotFoundError; ingestion aborts with the
delta unresolved and no `UnresolvedDeltas` error exists in the code. -/
theorem pack2_delta_base_later_delta :
    write_packfile_pass2 egObjectsC1 = Except.error PyErr.fileNotFound := by decide

/-- Claim C2: the claim says a copy instruction whose size bytes decode to
zero copies `0x10000` bytes, so applying delta `0a 0a 90 00 0a` to base
`"abcdefghij"` returns `"abcdefghij"`.  The code has no `size == 0`
special case (main.py lines 317-322): it copies zero bytes, and the
example evaluates to the empty payload instead. -/
theorem apply_delta_size_zero_eval :
    apply_delta (strBytes "abcdefghij") [0x0a, 0x0a, 0x90, 0x00, 0x0a] = Except.ok []
    ∧ apply_delta (strBytes "abcdefghij") [0x0a, 0x0a, 0x90, 0x00, 0x0a]
        ≠ Except.ok (strBytes "abcdefghij") := by
  constructor
  · rfl
  · decide

/-- Claim C3: the claim says write-tree emits entries in trailing-slash
order (directories compared as if named with a trailing `/`).  The code
sorts `os.listdir` output by bare name (main.py line 47); on a listing
with file `foo-bar` and directory `foo` the emitted order is `foo`,
`foo-bar`, while the trailing-slash key orders `foo-bar` before `foo/`. -/
theorem write_tree_sort_divergence :
    write_tree_order egListingC3 = [strBytes "foo", strBytes "foo-bar"]
    ∧ spec_tree_order egListingC3 = [strBytes "foo-bar", strBytes "foo"]
    ∧ write_tree_order egListingC3 ≠ spec_tree_order egListingC3 := by
  refine ⟨by decide, by decide, by decide⟩

/-- Claim C4: the claim says the pack bytes are exactly the channel-1
payloads with the channel byte stripped, channel-2 payloads are excluded,
and a channel-3 payload fails with `RemoteError`.  The code (main.py line
185) strips the first byte of every post-banner pkt-line without reading
it: a channel-2 payload's bytes land in the pack output, and a channel-3
payload is returned as pack data instead of raising. -/
theorem download_demux_divergence :
    download_packfile_demux egResponseC4 = Except.ok (strBytes "prog" ++ strBytes "PK")
    ∧ spec_sideband_demux [2 :: strBytes "prog", 1 :: strBytes "PK"]
        = Except.ok (strBytes "PK")
    ∧ strBytes "prog" ++ strBytes "PK" ≠ strBytes "PK"
    ∧ download_packfile_demux egResponseC4err = Except.ok (strBytes "err")
    ∧ spec_sideband_demux [3 :: strBytes "err"]
        = Except.error (.remoteError (strBytes "err")) := by
  refine ⟨by decide, by decide, by decide, by decide, by decide⟩

/-- Claim C5: the claim says a `0x00` instruction byte fails with
`MalformedDelta` and the result is stored only if its length equals the
declared target size.  The code treats `0x00` as a zero-length insert
(main.py lines 324-327) and never reads the target size (line 299 discards
it): on base `"x"` with delta `01 05 00` (target size 5, then the reserved
opcode) it succeeds with an empty result of length 0 ≠ 5, which
`process_object` would store. -/
theorem apply_delta_zero_opcode_eval :
    apply_delta [120] [0x01, 0x05, 0x00] = Except.ok []
    ∧ ([] : List Nat).length ≠ 5 := by
  refine ⟨rfl, by decide⟩

/-- Claim C6: the claim says an `ofs_delta` (type code 6) record fails with
`UnsupportedObject` rather than being skipped or causing misparsing.  The
code's first-pass loop has no branch for `ofs_delta` (main.py lines
241-258): the record is silently dropped with the cursor left right after
its header, so with a declared count of 2 the bytes of the skipped record
are reparsed as the next object header, fabricating a `blob` here. -/
theorem pack_first_pass_ofs_delta_eval :
    (∀ decomp : List Nat → List Nat × List Nat,
        pack_first_pass decomp 1 [0x60, 0x05, 0xAA] = Except.ok [])
    ∧ pack_first_pass decompEg 2 [0x60, 0x3A, 0x99]
        = Except.ok [⟨"blob", [0x99], none⟩] := by
  refine ⟨fun decomp => rfl, by decide⟩

/-- Claim C7: commit creation is deterministic — two invocations of
`create_commit` with identical tree, parent, message and timestamp (the
identities and timezone are the constants of main.py lines 90-94) produce
identical commit bytes and an identical printed sha. -/
theorem create_commit_deterministic (t₁ t₂ : String) (p₁ p₂ : Option String)
    (m₁ m₂ : String) (ts₁ ts₂ : Nat)
    (ht : t₁ = t₂) (hp : p₁ = p₂) (hm : m₁ = m₂) (hts : ts₁ = ts₂) :
    create_commit_data t₁ p₁ m₁ ts₁ = create_commit_data t₂ p₂ m₂ ts₂
    ∧ (create_commit t₁ p₁ m₁ ts₁).sha = (create_commit t₂ p₂ m₂ ts₂).sha := by
  subst ht hp hm hts
  exact ⟨rfl, rfl⟩

/-- Witness for C7 at a concrete commit. -/
theorem create_commit_deterministic_witness :
    create_commit_data "4b825dc642cb6eb9a060e54bf8d69288fbee4904" none "init" 1700000000
      = create_commit_data "4b825dc642cb6eb9a060e54bf8d69288fbee4904" none "init" 1700000000
    ∧ (create_commit "4b825dc642cb6eb9a060e54bf8d69288fbee4904" none "init" 1700000000).sha
      = (create_commit "4b825dc642cb6eb9a060e54bf8d69288fbee4904" none "init" 1700000000).sha :=
  create_commit_deterministic _ _ none none _ _ 1700000000 1700000000 rfl rfl rfl rfl

/-- Claim C8: `hash-object -w --stdin` on `"hello"` prints
`b6fc4c620b67d95f953a5c1c1230aaab5db5a1b0`, creating
`.git/objects/b6/fc4c...` whose pre-compression contents are the envelope
`blob 5\x00hello`; in general the stored path splits the hex SHA-1 of the
uncompressed envelope after two characters. -/
theorem hash_object_hello :
    (hash_object (strBytes "hello") "blob").sha = "b6fc4c620b67d95f953a5c1c1230aaab5db5a1b0"
    ∧ (hash_object (strBytes "hello") "blob").dir = ".git/objects/b6"
    ∧ (hash_object (strBytes "hello") "blob").file = "fc4c620b67d95f953a5c1c1230aaab5db5a1b0"
    ∧ (hash_object (strBytes "hello") "blob").stored = strBytes "blob 5" ++ 0 :: strBytes "hello"
    ∧ ∀ (d : List Nat) (t : String),
        (hash_object d t).sha = sha1Hex (envelopeBytes t d)
        ∧ (hash_object d t).dir = ".git/objects/" ++ strTake (sha1Hex (envelopeBytes t d)) 2
        ∧ (hash_object d t).file = strDrop (sha1Hex (envelopeBytes t d)) 2 := by
  refine ⟨by decide, by decide, by decide, by decide, fun d t => ⟨rfl, rfl, rfl⟩⟩

/-- Claim C9: the claim says `cat-file -p` prints the payload verbatim even
when it contains NUL bytes.  The code takes the last element of
`data.split(b"\x00", 2)` (main.py lines 410-412): for a stored blob with
payload `a\x00b` it prints only `b`, the bytes after the payload's first
NUL. -/
theorem cat_file_nul_truncation :
    cat_file_p (envelopeBytes "blob" [97, 0, 98]) = [98]
    ∧ ([98] : List Nat) ≠ [97, 0, 98] := by
  refine ⟨by decide, by decide⟩

/-- Claim C10: the delta instruction loop terminates on every finite delta:
each successful instruction — copy, insert, or the `0x00` opcode — leaves a
strictly shorter remaining program, and with fuel `|delta|` the embedded
loop never exhausts its fuel, so delta application is a total function of
the base payload and the delta bytes. -/
theorem delta_loop_terminates :
    (∀ (base_content : List Nat) (cmd : Nat) (rest chunk rem : List Nat),
        delta_step base_content cmd rest = Except.ok (chunk, rem) →
        rem.length < (cmd :: rest).length)
    ∧ (∀ (base_content : List Nat) (fuel : Nat) (delta : List Nat), delta.length ≤ fuel →
        apply_delta_go base_content fuel delta ≠ Except.error PyErr.loopFuel) :=
  ⟨delta_step_shrinks, fun b fuel delta h => apply_delta_go_no_fuel_error b fuel delta h⟩

/-- Witness for C10 at a concrete one-instruction delta. -/
theorem delta_loop_terminates_witness :
    delta_step [97] 1 [98] = Except.ok ([98], [])
    ∧ ([] : List Nat).length < ((1 : Nat) :: [98]).length
    ∧ apply_delta_go [97] 2 [1, 98] ≠ Except.error PyErr.loopFuel :=
  ⟨rfl, delta_loop_terminates.1 [97] 1 [98] [98] [] rfl,
   delta_loop_terminates.2 [97] 2 [1, 98] (by decide)⟩

end GitPy
